import Mathlib

/-!
Shallow embedding of the analysis helpers in `mental_health_utils.py` and proofs
of the specified properties.

Modelling conventions:
* a pandas `DataFrame` of joined survey responses is a `List Row`;
* a SQL `NULL` answer (pandas `NaN`) is `Option.none` in `answer_text`;
* a pandas `Series.value_counts()` result is a `List (String × Nat)` ordered by
  descending count (pandas drops null entries before counting, which the
  embedding mirrors by counting only the non-null answers);
* Python floats are modelled as real numbers, with `NaN` made explicit where the
  source can produce it.
-/

/-- One row of the Response Table produced by the three-way join in
`join_tables_to_dataframe`.  `answer_text` is an `Option` because the underlying
SQL column may be `NULL`, which pandas materialises as `NaN`. -/
structure Row where
  year : Int
  survey : String
  question_id : Int
  question_text : String
  user_id : Int
  answer_text : Option String
  deriving DecidableEq, Repr

/-- The in-memory Response Table. -/
abbrev DataFrame := List Row

/-- Embeds the pandas row filter `df[df["question_text"] == q]`. -/
def filterQuestion (df : DataFrame) (q : String) : DataFrame :=
  df.filter (fun r => r.question_text == q)

/-- The non-null answer texts of the given rows, in row order.  pandas
`value_counts()` silently drops `NaN` cells, so only these values are counted. -/
def nonNullAnswers (rows : DataFrame) : List String :=
  rows.filterMap (fun r => r.answer_text)

/-- Insert one `(value, count)` pair into a list that is sorted by descending
count, keeping the list sorted. -/
def insertDesc (x : String × Nat) : List (String × Nat) → List (String × Nat)
  | [] => [x]
  | y :: ys => if y.2 < x.2 then x :: y :: ys else y :: insertDesc x ys

/-- Sort `(value, count)` pairs by descending count (insertion sort). -/
def sortByCountDesc : List (String × Nat) → List (String × Nat)
  | [] => []
  | x :: xs => insertDesc x (sortByCountDesc xs)

/-- Embeds `Series.value_counts()` applied to a list of non-null cell values:
one entry per distinct value together with its number of occurrences, ordered
by descending count. -/
def valueCountsList (vals : List String) : List (String × Nat) :=
  sortByCountDesc (vals.dedup.map (fun v => (v, vals.count v)))

/-- Embeds `count_values(df, question_text, missing_value, max_display)`.
Returns `(distinct_values, count_missing, total_count)`:
`distinct_values` is the value-counts series of the rows matching the question;
`count_missing` is the number of matching rows whose answer equals the
missing-value sentinel (a `NaN` cell never equals the sentinel string, hence
the comparison with `some missing_value`); `total_count` is the number of
matching rows.  `max_display` only caps the printed preview in the source and
does not influence the returned values. -/
def count_values (df : DataFrame) (question_text : String) (missing_value : String)
    (max_display : Nat) : List (String × Nat) × Nat × Nat :=
  let question_df := filterQuestion df question_text
  let distinct_values := valueCountsList (nonNullAnswers question_df)
  let count_missing :=
    (question_df.filter (fun r => r.answer_text == some missing_value)).length
  let total_count := question_df.length
  let _ := max_display
  (distinct_values, count_missing, total_count)

/-- Embeds Python `str.lower()`: lower-cases a string character by character
(Lean's `String.toLower` computes the same string, but through a well-founded
recursion; this structural form lets concrete instances evaluate). -/
def pyLower (s : String) : String :=
  ⟨s.data.map Char.toLower⟩

/-- The category label assigned to one answer cell by
`answer_text.str.lower().map(mapping).fillna("Other")`: a `NaN` cell stays
`NaN` through `str.lower` and `map` and is turned into `"Other"` by `fillna`;
a string cell is lower-cased, looked up in the mapping, and a miss is likewise
turned into `"Other"`. -/
def applyMapping (mapping : List (String × String)) (a : Option String) : String :=
  match a with
  | none => "Other"
  | some s => (mapping.lookup (pyLower s)).getD "Other"

/-- Embeds `transform_and_aggregate(df, question, column_name, mapping)`:
filters the rows for the question, assigns each row its category label, and
returns the per-label value counts in descending order.  `column_name` only
names the derived column in the source and does not influence the counts. -/
def transform_and_aggregate (df : DataFrame) (question : String) (column_name : String)
    (mapping : List (String × String)) : List (String × Nat) :=
  let filtered_df := filterQuestion df question
  let labels := filtered_df.map (fun r => applyMapping mapping r.answer_text)
  let _ := column_name
  valueCountsList labels

/-- The exceptions the embedded functions can surface: `sqlError` is
`sqlite3.Error`, `nameError` is the unbound-local error Python raises when the
`finally` block reads `conn` after `sql.connect` itself failed, `otherError`
stands for a non-`sqlite3.Error` exception raised by the query step, and
`zeroDivisionError` is Python's error for division by zero. -/
inductive PyError where
  | sqlError
  | nameError
  | otherError
  | zeroDivisionError
  deriving DecidableEq, Repr

/-- How the external database behaves on one call: whether `sql.connect`
succeeds, and, if it does, whether `pd.read_sql_query` succeeds, raises a
`sqlite3.Error`, or raises some other exception. -/
inductive QueryOutcome where
  | success : DataFrame → QueryOutcome
  | failSql : QueryOutcome
  | failOther : QueryOutcome
  deriving DecidableEq, Repr

/-- One call's view of the external database collaborator. -/
structure DbBehavior where
  connectOk : Bool
  query : QueryOutcome
  deriving DecidableEq, Repr

/-- What a call to the loader yields: a normal return (Python `None` when the
function falls off the end after swallowing an exception, `some df` on
success), or a propagated exception. -/
inductive LoaderResult where
  | returned : Option DataFrame → LoaderResult
  | raised : PyError → LoaderResult
  deriving DecidableEq, Repr

/-- Full observable outcome of one loader call: the returned/raised result,
whether a connection was ever opened, whether it was closed, and whether the
`except` clause printed its diagnostic. -/
structure LoaderRun where
  result : LoaderResult
  connOpened : Bool
  connClosed : Bool
  printedDiagnostic : Bool
  deriving DecidableEq, Repr

/-- Embeds `join_tables_to_dataframe(db_path)` as a function of the database
behaviour, tracing the Python `try/except sql.Error/finally` control flow:

* `sql.connect` fails: the raised `sqlite3.Error` is caught by the `except`
  clause, which prints the diagnostic; the local `conn` was never bound, so the
  `finally` block's `if conn:` raises an unbound-local `NameError`, which
  propagates in place of the original error; no connection was opened.
* connect succeeds, query succeeds: the DataFrame is returned and the
  `finally` block closes the connection.
* connect succeeds, query raises `sqlite3.Error`: the `except` clause catches
  it and prints the diagnostic, the `finally` block closes the connection, and
  the function falls off the end, returning `None`.
* connect succeeds, query raises a non-`sqlite3.Error` exception: nothing
  catches it; the `finally` block closes the connection and the exception
  propagates. -/
def join_tables_to_dataframe (db : DbBehavior) : LoaderRun :=
  match db.connectOk, db.query with
  | true, .success rows => ⟨.returned (some rows), true, true, false⟩
  | true, .failSql => ⟨.returned none, true, true, true⟩
  | true, .failOther => ⟨.raised .otherError, true, true, false⟩
  | false, _ => ⟨.raised .nameError, false, false, true⟩

/-- A Python float as the interval estimator manipulates it: an ordinary
finite value (modelled exactly as a real number) or the IEEE `NaN` that
`np.sqrt` yields on a negative radicand. -/
inductive PyFloat where
  | fin : ℝ → PyFloat
  | nan : PyFloat

/-- Float multiplication; `NaN` is absorbing, as in IEEE arithmetic. -/
def PyFloat.mul : PyFloat → PyFloat → PyFloat
  | .fin a, .fin b => .fin (a * b)
  | _, _ => .nan

/-- Float subtraction; `NaN` is absorbing. -/
def PyFloat.sub : PyFloat → PyFloat → PyFloat
  | .fin a, .fin b => .fin (a - b)
  | _, _ => .nan

/-- Float addition; `NaN` is absorbing. -/
def PyFloat.add : PyFloat → PyFloat → PyFloat
  | .fin a, .fin b => .fin (a + b)
  | _, _ => .nan

/-- Embeds `np.sqrt` on a finite float: a negative argument produces `NaN`
(with a `RuntimeWarning`, not an exception); otherwise the square root. -/
noncomputable def npSqrt (x : ℝ) : PyFloat :=
  if x < 0 then .nan else .fin (Real.sqrt x)

/-- Outcome of a call to the interval estimator: the returned pair of floats,
or a propagated exception. -/
inductive CIResult where
  | returned : PyFloat → PyFloat → CIResult
  | raised : PyError → CIResult

/-- Embeds `calculate_confidence_interval(p, n, confidence_level)`.  The scipy
collaborator `norm.ppf` is passed in as the function `ppf`.  Python first
computes the z score, then evaluates `(p * (1 - p)) / n` — raising
`ZeroDivisionError` when `n` is zero — and applies `np.sqrt`, whose `NaN`
output on a negative radicand flows through the margin into both bounds. -/
noncomputable def calculate_confidence_interval (ppf : ℝ → ℝ) (p n confidence_level : ℝ) :
    CIResult :=
  let z_score := ppf (1 - (1 - confidence_level) / 2)
  if n = 0 then .raised .zeroDivisionError
  else
    let se := npSqrt (p * (1 - p) / n)
    let margin_of_error := PyFloat.mul (.fin z_score) se
    .returned (PyFloat.sub (.fin p) margin_of_error) (PyFloat.add (.fin p) margin_of_error)

/-! ### Counting lemmas shared by the tabulator and categorizer proofs -/

theorem sum_snd_insertDesc (x : String × Nat) (l : List (String × Nat)) :
    ((insertDesc x l).map Prod.snd).sum = x.2 + (l.map Prod.snd).sum := by
  induction l with
  | nil => simp [insertDesc]
  | cons y ys ih =>
      by_cases h : y.2 < x.2
      · simp [insertDesc, h]
      · simp only [insertDesc, if_neg h, List.map_cons, List.sum_cons, ih]
        omega

theorem sum_snd_sortByCountDesc (l : List (String × Nat)) :
    ((sortByCountDesc l).map Prod.snd).sum = (l.map Prod.snd).sum := by
  induction l with
  | nil => rfl
  | cons x xs ih => simp [sortByCountDesc, sum_snd_insertDesc, ih]

/-- The value-counts series of a list of values sums to the length of the
list: each element is counted under exactly one distinct value. -/
theorem sum_valueCountsList (vals : List String) :
    ((valueCountsList vals).map Prod.snd).sum = vals.length := by
  rw [valueCountsList, sum_snd_sortByCountDesc, List.map_map]
  simpa [Function.comp] using List.sum_map_count_dedup_eq_length vals

/-- Splitting the rows into null-answer and non-null-answer rows. -/
theorem length_nonNullAnswers_add (rows : DataFrame) :
    (nonNullAnswers rows).length
      + (rows.filter (fun r => r.answer_text.isNone)).length = rows.length := by
  induction rows with
  | nil => rfl
  | cons r rs ih =>
      simp only [nonNullAnswers] at ih
      cases h : r.answer_text with
      | none =>
          simp [nonNullAnswers, List.filter_cons, h]
          omega
      | some a =>
          simp [nonNullAnswers, List.filter_cons, h]
          omega

/-- The sentinel comparison only ever counts rows whose answer is a non-null
value equal to the sentinel: it agrees with counting the sentinel among the
non-null answers, so null cells never contribute to the missing count. -/
theorem missing_count_eq_count_nonNull (rows : DataFrame) (mv : String) :
    (rows.filter (fun r => r.answer_text == some mv)).length
      = (nonNullAnswers rows).count mv := by
  induction rows with
  | nil => rfl
  | cons r rs ih =>
      cases h : r.answer_text with
      | none => simpa [nonNullAnswers, List.filter_cons, h] using ih
      | some a =>
          by_cases ha : a = mv <;>
            simp [nonNullAnswers, List.filter_cons, h, ha, List.count_cons, ih]

/-- Lower-casing of a `Char` in the ASCII range used by `Char.toLower`. -/
theorem toNat_charOfNat_of_valid (n : Nat) (h : n.isValidChar) :
    (Char.ofNat n).toNat = n := by
  simp [Char.ofNat, dif_pos h, Char.ofNatAux, Char.toNat, UInt32.toNat]

/-- Lower-casing a character twice is the same as lower-casing it once. -/
theorem charToLower_idem (c : Char) : c.toLower.toLower = c.toLower := by
  simp only [Char.toLower]
  by_cases h : c.toNat ≥ 65 ∧ c.toNat ≤ 90
  · rw [if_pos h]
    have hv : (c.toNat + 32).isValidChar := Or.inl (by omega)
    rw [toNat_charOfNat_of_valid _ hv, if_neg (by omega)]
  · rw [if_neg h, if_neg h]

/-- Lower-casing a string twice is the same as lower-casing it once. -/
theorem pyLower_idem (s : String) : pyLower (pyLower s) = pyLower s := by
  simp [pyLower, List.map_map, Function.comp_def, charToLower_idem]

/-! ### Concrete tables used in examples, witnesses and counterexamples -/

/-- A Response Table whose single matching row has a NULL answer. -/
def dfNullAnswer : DataFrame :=
  [⟨2014, "mental health survey", 1, "Q", 7, none⟩]

/-- The Categorizer case-study table: four rows answering the same question
with answer texts "Yes", "yes", "NO", "maybe". -/
def dfCaseStudy : DataFrame :=
  [⟨2014, "s", 1, "Q", 1, some "Yes"⟩,
   ⟨2014, "s", 1, "Q", 2, some "yes"⟩,
   ⟨2014, "s", 1, "Q", 3, some "NO"⟩,
   ⟨2014, "s", 1, "Q", 4, some "maybe"⟩]

/-- The case-study mapping from lower-cased answer text to normalised label. -/
def yesNoMapping : List (String × String) := [("yes", "Yes"), ("no", "No")]

/-! ### Tabulator theorems -/

/-- C3 (counterexample): on a table whose single matching row has a NULL
answer, the frequency series returned by `count_values` sums to 0 while the
returned total count is 1, refuting the claimed equality of sum and total. -/
theorem count_values_sum_ne_total_on_null :
    ¬ (((count_values dfNullAnswer "Q" "-1" 5).1.map Prod.snd).sum
        = (count_values dfNullAnswer "Q" "-1" 5).2.2) := by decide

/-- C3 (amended): for every table, question, sentinel and display cap, the
frequency series returned by `count_values` sums to the total count minus the
number of null-answer rows — hence exactly to the total count whenever no
matching row has a null answer — and the missing-value count never exceeds the
total count. -/
theorem count_values_sum_invariant (df : DataFrame) (q mv : String) (k : Nat) :
    ((count_values df q mv k).1.map Prod.snd).sum
        + ((filterQuestion df q).filter (fun r => r.answer_text.isNone)).length
      = (count_values df q mv k).2.2
    ∧ (count_values df q mv k).2.1 ≤ (count_values df q mv k).2.2 := by
  refine ⟨?_, ?_⟩
  · simp only [count_values, sum_valueCountsList]
    exact length_nonNullAnswers_add (filterQuestion df q)
  · simp only [count_values]
    exact List.length_filter_le _ _

/-- C7: when no row of the table matches the question text, `count_values`
returns an empty frequency series, missing count 0 and total count 0. -/
theorem count_values_no_matching_rows (df : DataFrame) (q mv : String) (k : Nat)
    (h : ∀ r ∈ df, r.question_text ≠ q) :
    count_values df q mv k = ([], 0, 0) := by
  have hf : filterQuestion df q = [] := by
    rw [filterQuestion, List.filter_eq_nil_iff]
    intro r hr
    simpa using h r hr
  simp [count_values, hf, valueCountsList, nonNullAnswers, sortByCountDesc]

/-- Witness for `count_values_no_matching_rows`: a concrete table none of
whose rows matches the question text "R". -/
theorem count_values_no_matching_rows_witness :
    (∀ r ∈ dfCaseStudy, r.question_text ≠ "R")
    ∧ count_values dfCaseStudy "R" "-1" 5 = ([], 0, 0) :=
  ⟨by decide, count_values_no_matching_rows dfCaseStudy "R" "-1" 5 (by decide)⟩

/-- C10: `count_values` excludes null answers from the frequency series while
still counting their rows in the total, so the per-value counts sum to the
total count minus the number of null-answer rows; and the missing-value count
equals the number of occurrences of the sentinel among the non-null answers,
so a null answer is never counted toward the missing-value count. -/
theorem count_values_null_answer_handling (df : DataFrame) (q mv : String) (k : Nat) :
    ((count_values df q mv k).1.map Prod.snd).sum
      = (count_values df q mv k).2.2
        - ((filterQuestion df q).filter (fun r => r.answer_text.isNone)).length
    ∧ (count_values df q mv k).2.1 = (nonNullAnswers (filterQuestion df q)).count mv := by
  refine ⟨?_, ?_⟩
  · have h := length_nonNullAnswers_add (filterQuestion df q)
    simp only [count_values, sum_valueCountsList]
    omega
  · simp only [count_values]
    exact missing_count_eq_count_nonNull _ _

/-! ### Categorizer theorems -/

/-- C4: the categorizer partitions the filtered rows — the per-label counts
sum to the number of rows matching the question, and each filtered row yields
exactly one label —, any answer whose lower-cased text is not a key of the
mapping is labelled "Other", and on the case-study table (answers "Yes",
"yes", "NO", "maybe") with the mapping yes ↦ Yes, no ↦ No the output counts
are Yes ↦ 2, No ↦ 1, Other ↦ 1 and nothing else. -/
theorem transform_and_aggregate_partition (df : DataFrame) (q cn : String)
    (mapping : List (String × String)) :
    (((transform_and_aggregate df q cn mapping).map Prod.snd).sum
        = (filterQuestion df q).length)
    ∧ (((filterQuestion df q).map (fun r => applyMapping mapping r.answer_text)).length
        = (filterQuestion df q).length)
    ∧ (∀ a : String, mapping.lookup (pyLower a) = none →
        applyMapping mapping (some a) = "Other")
    ∧ ((transform_and_aggregate dfCaseStudy "Q" "category" yesNoMapping).lookup "Yes"
          = some 2
        ∧ (transform_and_aggregate dfCaseStudy "Q" "category" yesNoMapping).lookup "No"
          = some 1
        ∧ (transform_and_aggregate dfCaseStudy "Q" "category" yesNoMapping).lookup "Other"
          = some 1
        ∧ (transform_and_aggregate dfCaseStudy "Q" "category" yesNoMapping).length = 3) := by
  refine ⟨?_, by simp, ?_, by decide⟩
  · simp only [transform_and_aggregate, sum_valueCountsList, List.length_map]
  · intro a ha
    simp [applyMapping, ha]

/-- Witness for `transform_and_aggregate_partition`: the concrete answer
"maybe" misses the case-study mapping and is labelled "Other". -/
theorem transform_and_aggregate_partition_witness :
    yesNoMapping.lookup (pyLower "maybe") = none
    ∧ applyMapping yesNoMapping (some "maybe") = "Other" :=
  ⟨by decide,
    (transform_and_aggregate_partition dfCaseStudy "Q" "category" yesNoMapping).2.2.1
      "maybe" (by decide)⟩

/-- C8: category lookups are case-insensitive — two answers with the same
lower-cased form receive the same label, and, equivalently, an answer and its
lower-cased form receive the same label — and each filtered row receives
exactly one category label. -/
theorem applyMapping_case_insensitive :
    (∀ (mapping : List (String × String)) (a b : String), pyLower a = pyLower b →
        applyMapping mapping (some a) = applyMapping mapping (some b))
    ∧ (∀ (mapping : List (String × String)) (a : String),
        applyMapping mapping (some a) = applyMapping mapping (some (pyLower a)))
    ∧ (∀ (df : DataFrame) (q : String) (mapping : List (String × String)),
        ((filterQuestion df q).map (fun r => applyMapping mapping r.answer_text)).length
          = (filterQuestion df q).length) := by
  refine ⟨?_, ?_, fun df q mapping => by simp⟩
  · intro mapping a b hab
    simp [applyMapping, hab]
  · intro mapping a
    simp [applyMapping, pyLower_idem]

/-- Witness for `applyMapping_case_insensitive`: the concrete answers "NO" and
"nO" have the same lower-cased form and receive the same label. -/
theorem applyMapping_case_insensitive_witness :
    pyLower "NO" = pyLower "nO"
    ∧ applyMapping yesNoMapping (some "NO") = applyMapping yesNoMapping (some "nO") :=
  ⟨by decide, applyMapping_case_insensitive.1 yesNoMapping "NO" "nO" (by decide)⟩

/-! ### Loader theorems -/

/-- C1: when the connection is established the loader closes it on every exit
path (successful query, sqlite query failure, other query failure); but when
`sql.connect` itself fails — so no connection was ever established — the
cleanup step reads the unbound local `conn` and raises a `NameError` instead
of completing quietly, contradicting the claim that the cleanup step never
raises in that case. -/
theorem join_tables_cleanup (db : DbBehavior) :
    (db.connectOk = true → (join_tables_to_dataframe db).connClosed = true)
    ∧ (db.connectOk = false →
        (join_tables_to_dataframe db).connOpened = false
        ∧ (join_tables_to_dataframe db).result = .raised .nameError) := by
  refine ⟨?_, ?_⟩ <;> intro h <;>
    cases hq : db.query <;> simp [join_tables_to_dataframe, h, hq]

/-- Witness for `join_tables_cleanup`: the concrete behaviour in which the
connection cannot be opened, where the cleanup raises the `NameError`. -/
theorem join_tables_cleanup_witness :
    (DbBehavior.mk false .failSql).connectOk = false
    ∧ (join_tables_to_dataframe ⟨false, .failSql⟩).result = .raised .nameError :=
  ⟨rfl, ((join_tables_cleanup ⟨false, .failSql⟩).2 rfl).2⟩

/-- C2: contrary to the claim (and to the docstring of the source function,
which says a query error is raised to the caller), a query failure raising a
`sqlite3.Error` is caught by the `except` clause: the diagnostic is printed,
the connection is closed, and the call returns `None` — the data-access error
is swallowed and does not propagate. -/
theorem join_tables_swallows_sql_error (db : DbBehavior)
    (hc : db.connectOk = true) (hq : db.query = .failSql) :
    (join_tables_to_dataframe db).result = .returned none
    ∧ (join_tables_to_dataframe db).printedDiagnostic = true
    ∧ (join_tables_to_dataframe db).connClosed = true := by
  simp [join_tables_to_dataframe, hc, hq]

/-- Witness for `join_tables_swallows_sql_error`: the concrete behaviour in
which the connection opens and the query raises a `sqlite3.Error`. -/
theorem join_tables_swallows_sql_error_witness :
    (DbBehavior.mk true .failSql).connectOk = true
    ∧ (join_tables_to_dataframe ⟨true, .failSql⟩).result = .returned none :=
  ⟨rfl, (join_tables_swallows_sql_error ⟨true, .failSql⟩ rfl rfl).1⟩

/-! ### Interval estimator theorems -/

/-- C5: at the default confidence level, whenever 0 < p < 1 and n > 0 — and
the z score delivered by the standard normal quantile at the derived
probability is nonnegative, as it is for scipy's `norm.ppf` at 0.975 — the
call returns a finite pair whose bounds bracket p. -/
theorem confidence_interval_brackets (ppf : ℝ → ℝ) (p n : ℝ)
    (hz : 0 ≤ ppf (1 - (1 - 0.95) / 2)) (hp0 : 0 < p) (hp1 : p < 1) (hn : 0 < n) :
    ∃ lo hi : ℝ,
      calculate_confidence_interval ppf p n 0.95 = .returned (.fin lo) (.fin hi)
      ∧ lo ≤ p ∧ p ≤ hi := by
  have hne : n ≠ 0 := ne_of_gt hn
  have hrad : 0 ≤ p * (1 - p) / n :=
    div_nonneg (mul_nonneg hp0.le (by linarith)) hn.le
  have hmargin : 0 ≤ ppf (1 - (1 - 0.95) / 2) * Real.sqrt (p * (1 - p) / n) :=
    mul_nonneg hz (Real.sqrt_nonneg _)
  refine ⟨p - ppf (1 - (1 - 0.95) / 2) * Real.sqrt (p * (1 - p) / n),
          p + ppf (1 - (1 - 0.95) / 2) * Real.sqrt (p * (1 - p) / n),
          ?_, by linarith, by linarith⟩
  simp only [calculate_confidence_interval, npSqrt, if_neg hne,
    if_neg (not_lt.mpr hrad), PyFloat.mul, PyFloat.sub, PyFloat.add]

/-- Witness for `confidence_interval_brackets` at p = 1/2, n = 100 with the
concrete z score 1.96. -/
theorem confidence_interval_brackets_witness :
    ((0:ℝ) ≤ 1.96 ∧ (0:ℝ) < 1/2 ∧ (1/2:ℝ) < 1 ∧ (0:ℝ) < 100)
    ∧ ∃ lo hi : ℝ,
        calculate_confidence_interval (fun _ => 1.96) (1/2) 100 0.95
          = .returned (.fin lo) (.fin hi) ∧ lo ≤ 1/2 ∧ 1/2 ≤ hi :=
  ⟨⟨by norm_num, by norm_num, by norm_num, by norm_num⟩,
    confidence_interval_brackets (fun _ => 1.96) (1/2) 100
      (by norm_num) (by norm_num) (by norm_num) (by norm_num)⟩

/-- C6 (counterexample): with p = 1/2 and n = −4 — a violated precondition,
since n ≤ 0 — the call does not propagate any error: it returns the ordinary
pair value (NaN, NaN), refuting the claim that such calls propagate a
computation error rather than returning a pair. -/
theorem confidence_interval_returns_nan_pair :
    calculate_confidence_interval (fun _ => 1.96) (1/2) (-4) 0.95
      = .returned .nan .nan := by
  have hne : (-4 : ℝ) ≠ 0 := by norm_num
  have hrad : ((1/2 : ℝ) * (1 - 1/2) / (-4)) < 0 := by norm_num
  simp only [calculate_confidence_interval, npSqrt, if_neg hne, if_pos hrad,
    PyFloat.mul, PyFloat.sub, PyFloat.add]

/-- C6 (amended): precondition violations are indeed not handled internally,
but only n = 0 propagates a computation error (Python's `ZeroDivisionError`
from the division); every call with n ≠ 0 — including n < 0 and p outside
[0,1] — returns a pair instead of raising, and its components are NaN
whenever the radicand p·(1−p)/n is negative. -/
theorem confidence_interval_preconditions (ppf : ℝ → ℝ) (p n cl : ℝ) :
    (calculate_confidence_interval ppf p 0 cl = .raised .zeroDivisionError)
    ∧ (n ≠ 0 → ∃ lo hi : PyFloat,
        calculate_confidence_interval ppf p n cl = .returned lo hi)
    ∧ (n ≠ 0 → p * (1 - p) / n < 0 →
        calculate_confidence_interval ppf p n cl = .returned .nan .nan) := by
  refine ⟨?_, ?_, ?_⟩
  · simp [calculate_confidence_interval]
  · intro hne
    simp only [calculate_confidence_interval, if_neg hne]
    exact ⟨_, _, rfl⟩
  · intro hne hrad
    simp only [calculate_confidence_interval, npSqrt, if_neg hne, if_pos hrad,
      PyFloat.mul, PyFloat.sub, PyFloat.add]

/-- Witness for `confidence_interval_preconditions` at the concrete violated
precondition p = 1/2, n = −4. -/
theorem confidence_interval_preconditions_witness :
    ((-4 : ℝ) ≠ 0 ∧ ((1/2 : ℝ) * (1 - 1/2) / (-4)) < 0)
    ∧ calculate_confidence_interval (fun _ => 1.955) (1/2) (-4) 0.95
        = .returned .nan .nan :=
  ⟨⟨by norm_num, by norm_num⟩,
    (confidence_interval_preconditions (fun _ => 1.955) (1/2) (-4) 0.95).2.2
      (by norm_num) (by norm_num)⟩

/-- C9: with p = 1/2, n = 100 and the default confidence level, given that the
z score delivered by the quantile function lies between 1.95 and 1.97 (scipy
returns 1.95996…), the standard error is exactly 1/20 and the returned bounds
lie within 0.001 of 0.402 and 0.598. -/
theorem confidence_interval_half_hundred (ppf : ℝ → ℝ)
    (hz1 : 1.95 ≤ ppf (1 - (1 - 0.95) / 2)) (hz2 : ppf (1 - (1 - 0.95) / 2) ≤ 1.97) :
    ∃ lo hi : ℝ,
      calculate_confidence_interval ppf (1/2) 100 0.95 = .returned (.fin lo) (.fin hi)
      ∧ |lo - 0.402| ≤ 0.001 ∧ |hi - 0.598| ≤ 0.001 := by
  have hne : (100 : ℝ) ≠ 0 := by norm_num
  have hrad : ¬ ((1/2 : ℝ) * (1 - 1/2) / 100 < 0) := by norm_num
  have hsq : Real.sqrt ((1/2 : ℝ) * (1 - 1/2) / 100) = 1/20 := by
    rw [show ((1:ℝ)/2 * (1 - 1/2) / 100) = (1/20)^2 by norm_num,
      Real.sqrt_sq (by norm_num)]
  refine ⟨1/2 - ppf (1 - (1 - 0.95) / 2) * (1/20),
          1/2 + ppf (1 - (1 - 0.95) / 2) * (1/20), ?_, ?_, ?_⟩
  · simp only [calculate_confidence_interval, npSqrt, if_neg hne, if_neg hrad,
      hsq, PyFloat.mul, PyFloat.sub, PyFloat.add]
  · rw [abs_le]
    constructor <;> linarith
  · rw [abs_le]
    constructor <;> linarith

/-- Witness for `confidence_interval_half_hundred` with the concrete z score
1.96. -/
theorem confidence_interval_half_hundred_witness :
    ((1.95 : ℝ) ≤ 1.96 ∧ (1.96 : ℝ) ≤ 1.97)
    ∧ ∃ lo hi : ℝ,
        calculate_confidence_interval (fun _ => 1.96) (1/2) 100 0.95
          = .returned (.fin lo) (.fin hi)
        ∧ |lo - 0.402| ≤ 0.001 ∧ |hi - 0.598| ≤ 0.001 :=
  ⟨⟨by norm_num, by norm_num⟩,
    confidence_interval_half_hundred (fun _ => 1.96) (by norm_num) (by norm_num)⟩

